import Mathlib

/-!
Verification of the speaker-routing policies and the PDF-processing
Lambda handler of the keyvex repository, shallowly embedded in Lean.

Routers: `state_transition` (cruise_promo/research.py, lines 107-126)
and `state_transition_2` (cruise_promo/research3.py, lines 204-223).
In the Python source the five agents are distinct objects
(`user_proxy` named "Admin", `planner`, `researcher`, `executor`,
`writer`); `last_speaker is agent` compares object identity, which we
embed as equality of constructors of an inductive `Speaker`.  The
constructor `Speaker.other n` stands for any further agent object that
is none of the five.  `groupchat.messages` is a Python list read only
via `messages[-1]`; on an empty list that raises IndexError, embedded
as `Except.error`.  Falling off the end of the Python function returns
None, embedded as `Except.ok none`.
-/

/-- One conversational role.  `other n` is any agent that is none of the
five agents constructed in the scripts. -/
inductive Speaker where
  | admin
  | planner
  | researcher
  | executor
  | writer
  | other (n : Nat)
deriving DecidableEq, Repr

/-- A chat message: `{"content": ...}` dict with the speaker attached,
as stored in `groupchat.messages`. -/
structure Message where
  speaker : Speaker
  content : String
deriving DecidableEq, Repr

/-- The `autogen.GroupChat` object as the routers see it: the routers
read only the `messages` field; `agents` and `max_round` are carried to
show exactly that. -/
structure GroupChat where
  agents : List Speaker
  messages : List Message
  maxRound : Nat
deriving DecidableEq, Repr

/-- A routing decision: a concrete next agent, or the string "auto"
meaning automatic selection. -/
inductive RoutingDecision where
  | next (s : Speaker)
  | auto
deriving DecidableEq, Repr

/-- The IndexError message Python raises for `messages[-1]` on an empty
list. -/
def indexErrorMsg : String := "IndexError: list index out of range"

/-- Python's `pat in s` on strings: case-sensitive substring containment
(true iff `pat` occurs contiguously anywhere in `s`). -/
def pyInStr (pat s : String) : Bool :=
  (List.range (s.length + 1)).any (fun i => pat.toList.isPrefixOf (s.toList.drop i))

/-- `state_transition` from cruise_promo/research.py (lines 107-126).
`Except.error` = a raised exception, `Except.ok none` = the implicit
Python None when no branch matches, `Except.ok (some d)` = a returned
decision. -/
def state_transition (last_speaker : Speaker) (groupchat : GroupChat) :
    Except String (Option RoutingDecision) :=
  let messages := groupchat.messages
  match last_speaker with
  | .admin => .ok (some (.next .planner))
  | .planner => .ok (some .auto)
  | .researcher => .ok (some (.next .executor))
  | .executor =>
    match messages.getLast? with
    | none => .error indexErrorMsg
    | some m =>
      if m.content = "exitcode: 1" then .ok (some (.next .researcher))
      else .ok (some (.next .planner))
  | .writer => .ok (some (.next .admin))
  | .other _ => .ok none

/-- `state_transition_2` from cruise_promo/research3.py (lines 204-223).
Python `"COMPLETE" in messages[-1]["content"]` is case-sensitive
substring containment, embedded as `pyInStr`. -/
def state_transition_2 (last_speaker : Speaker) (groupchat : GroupChat) :
    Except String (Option RoutingDecision) :=
  let messages := groupchat.messages
  match last_speaker with
  | .executor =>
    match messages.getLast? with
    | none => .error indexErrorMsg
    | some m =>
      if pyInStr "COMPLETE" m.content then .ok (some (.next .planner))
      else .ok (some (.next .researcher))
  | .planner => .ok (some .auto)
  | .researcher =>
    match messages.getLast? with
    | none => .error indexErrorMsg
    | some m =>
      if pyInStr "COMPLETE" m.content then .ok (some (.next .planner))
      else .ok (some (.next .executor))
  | .admin => .ok (some (.next .planner))
  | .writer => .ok (some .auto)
  | .other _ => .ok none

/-- An empty group chat used for concrete evaluations. -/
def gcEmpty : GroupChat :=
  { agents := [.admin, .executor, .researcher, .planner, .writer]
    messages := []
    maxRound := 50 }

/-- A group chat whose transcript is exactly the given messages. -/
def gcWith (ms : List Message) : GroupChat :=
  { agents := [.admin, .executor, .researcher, .planner, .writer]
    messages := ms
    maxRound := 50 }

/-- C1 counterexample: for a speaker that is none of the five enumerated
roles, both routers fall off the end and return the Python None
(`Except.ok none`) — no exception is raised and no "no rule matched"
error value is produced. -/
theorem state_transition_unmatched_silent_none :
    state_transition (.other 0) gcEmpty = .ok none ∧
    state_transition_2 (.other 0) gcEmpty = .ok none := by
  constructor <;> rfl

/-- C1 amended: if `last_speaker` is none of the enumerated roles, both
routers return None (no decision) silently; neither raises nor returns
an explicit "no rule matched" error. -/
theorem state_transition_unmatched_returns_none (n : Nat) (gc : GroupChat) :
    state_transition (.other n) gc = .ok none ∧
    state_transition_2 (.other n) gc = .ok none := by
  constructor <;> rfl

/-- C2: for Policy A with `last_speaker = executor` and a non-empty
transcript, the router returns Researcher exactly when the last message
content is the literal string "exitcode: 1", and Planner otherwise. -/
theorem state_transition_executor_branch (gc : GroupChat) (m : Message)
    (h : gc.messages.getLast? = some m) :
    state_transition .executor gc =
      .ok (some (.next (if m.content = "exitcode: 1" then .researcher else .planner))) := by
  simp only [state_transition]
  rw [h]
  by_cases hc : m.content = "exitcode: 1" <;> simp [hc]

/-- C2 witness: on the transcript `[{Executor, "exitcode: 1"}]` Policy A
routes to Researcher, and on `[{Executor, "done"}]` to Planner. -/
theorem state_transition_executor_branch_witness :
    state_transition .executor (gcWith [⟨.executor, "exitcode: 1"⟩]) =
      .ok (some (.next .researcher)) ∧
    state_transition .executor (gcWith [⟨.executor, "done"⟩]) =
      .ok (some (.next .planner)) := by
  refine ⟨?_, ?_⟩
  · have h := state_transition_executor_branch
      (gcWith [⟨.executor, "exitcode: 1"⟩]) ⟨.executor, "exitcode: 1"⟩ rfl
    simpa using h
  · have h := state_transition_executor_branch
      (gcWith [⟨.executor, "done"⟩]) ⟨.executor, "done"⟩ rfl
    simpa using h

/-- C3: for Policy B with `last_speaker = researcher` and a non-empty
transcript, the router returns Planner exactly when "COMPLETE" occurs
as a case-sensitive substring of the last message content, and Executor
otherwise. -/
theorem state_transition_2_researcher_branch (gc : GroupChat) (m : Message)
    (h : gc.messages.getLast? = some m) :
    state_transition_2 .researcher gc =
      .ok (some (.next (if pyInStr "COMPLETE" m.content then .planner else .executor))) := by
  simp only [state_transition_2]
  rw [h]
  by_cases hc : pyInStr "COMPLETE" m.content <;> simp [hc]

/-- C3 witness: `[{Researcher, "Report is COMPLETE"}]` routes to Planner,
`[{Researcher, "still gathering data"}]` routes to Executor. -/
theorem state_transition_2_researcher_branch_witness :
    state_transition_2 .researcher (gcWith [⟨.researcher, "Report is COMPLETE"⟩]) =
      .ok (some (.next .planner)) ∧
    state_transition_2 .researcher (gcWith [⟨.researcher, "still gathering data"⟩]) =
      .ok (some (.next .executor)) := by
  refine ⟨?_, ?_⟩
  · have h := state_transition_2_researcher_branch
      (gcWith [⟨.researcher, "Report is COMPLETE"⟩]) ⟨.researcher, "Report is COMPLETE"⟩ rfl
    have hc : pyInStr "COMPLETE" "Report is COMPLETE" = true := by decide
    rw [h, hc]
    rfl
  · have h := state_transition_2_researcher_branch
      (gcWith [⟨.researcher, "still gathering data"⟩]) ⟨.researcher, "still gathering data"⟩ rfl
    have hc : pyInStr "COMPLETE" "still gathering data" = false := by decide
    rw [h, hc]
    rfl

/-- C9: for every group chat (including an empty transcript), both
policies route Admin (the user proxy) to Planner. -/
theorem state_transition_admin_to_planner (gc : GroupChat) :
    state_transition .admin gc = .ok (some (.next .planner)) ∧
    state_transition_2 .admin gc = .ok (some (.next .planner)) := by
  constructor <;> rfl

/-- C8: both routers are deterministic and are pure functions of
`(last_speaker, transcript)`: repeated invocation on identical inputs
gives identical decisions, and the decision does not depend on any part
of the group chat other than `messages`.  The routers are embedded as
functions that take the transcript by value and return only a decision,
so non-mutation of the transcript holds by construction (the Python
bodies contain no assignment to `groupchat` or its fields). -/
theorem routers_deterministic_and_pure (ls : Speaker) (gc gc' : GroupChat)
    (h : gc.messages = gc'.messages) :
    state_transition ls gc = state_transition ls gc ∧
    state_transition_2 ls gc = state_transition_2 ls gc ∧
    state_transition ls gc = state_transition ls gc' ∧
    state_transition_2 ls gc = state_transition_2 ls gc' := by
  refine ⟨rfl, rfl, ?_, ?_⟩ <;>
    cases ls <;> simp [state_transition, state_transition_2, h]

/-- C8 witness: two group chats agreeing on `messages` but differing in
`agents` and `max_round` get the same decision for Executor. -/
theorem routers_deterministic_and_pure_witness :
    state_transition .executor (gcWith [⟨.executor, "ok"⟩]) =
      state_transition .executor
        { agents := [], messages := [⟨.executor, "ok"⟩], maxRound := 7 } := by
  exact (routers_deterministic_and_pure .executor (gcWith [⟨.executor, "ok"⟩])
    { agents := [], messages := [⟨.executor, "ok"⟩], maxRound := 7 } rfl).2.2.1

/-- C10: both routers read the transcript only through its last element
(decisions agree whenever the last elements agree); on an empty
transcript the Executor branch of both policies and the Researcher
branch of Policy B hit the IndexError branch of the `messages[-1]`
lookup; the Admin, Planner and Writer branches never read the
transcript and return a decision for every transcript. -/
theorem routers_transcript_access :
    (∀ ls : Speaker, ∀ gc gc' : GroupChat,
      gc.messages.getLast? = gc'.messages.getLast? →
      state_transition ls gc = state_transition ls gc' ∧
      state_transition_2 ls gc = state_transition_2 ls gc') ∧
    (∀ gc : GroupChat, gc.messages = [] →
      state_transition .executor gc = .error indexErrorMsg ∧
      state_transition_2 .executor gc = .error indexErrorMsg ∧
      state_transition_2 .researcher gc = .error indexErrorMsg) ∧
    (∀ gc : GroupChat,
      state_transition .admin gc = .ok (some (.next .planner)) ∧
      state_transition .planner gc = .ok (some .auto) ∧
      state_transition .writer gc = .ok (some (.next .admin)) ∧
      state_transition_2 .admin gc = .ok (some (.next .planner)) ∧
      state_transition_2 .planner gc = .ok (some .auto) ∧
      state_transition_2 .writer gc = .ok (some .auto)) := by
  refine ⟨?_, ?_, ?_⟩
  · intro ls gc gc' h
    constructor <;> cases ls <;> simp [state_transition, state_transition_2, h]
  · intro gc h
    refine ⟨?_, ?_, ?_⟩ <;> simp [state_transition, state_transition_2, h]
  · intro gc
    exact ⟨rfl, rfl, rfl, rfl, rfl, rfl⟩

/-- C10 witness: on the empty transcript the content-inspecting branches
of both routers hit the IndexError branch, and a transcript extension
that keeps the last element keeps Policy A's Executor decision. -/
theorem routers_transcript_access_witness :
    state_transition .executor gcEmpty = .error indexErrorMsg ∧
    state_transition .executor (gcWith [⟨.admin, "go"⟩, ⟨.executor, "done"⟩]) =
      state_transition .executor (gcWith [⟨.executor, "done"⟩]) := by
  refine ⟨(routers_transcript_access.2.1 gcEmpty rfl).1, ?_⟩
  exact (routers_transcript_access.1 .executor
    (gcWith [⟨.admin, "go"⟩, ⟨.executor, "done"⟩]) (gcWith [⟨.executor, "done"⟩]) rfl).1

/-!
PDF-processing Lambda:
`handler` from aws-infra/lambda-fns/process-lease-pdf/index.py.
External effects (S3, DynamoDB, PyMuPDF, HTTP POST) are embedded as a
`World` record of call outcomes; a Python exception is `Except.error`
carrying the message, the value of `analysis_id_from_metadata` at the
raise site, and the DynamoDB updates already performed.  Each
`table.update_item` call is recorded as a `DdbUpdate` (the update also
writes `lastUpdatedTimestamp`, and the success update additionally
writes `s3Key`, `fileName`, `userId`, `userSelectedState`; wall-clock
values are not modelled).  The JSON body of a response is modelled by
the message string passed to `json.dumps`.
-/

/-- Python truthiness of an optional string (`None` and `""` are falsy),
as used by `if not LEASE_ANALYSES_TABLE_NAME ...` (line 22) and
`if not analysis_id_from_metadata` (line 54). -/
def pyTruthy (s : Option String) : Bool :=
  match s with
  | none => false
  | some t => t != ""

/-- One `table.update_item` call, keyed by `analysisId`, restricted to
the fields the claims are about. -/
structure DdbUpdate where
  analysisId : String
  status : String
  errorDetails : Option String
deriving DecidableEq, Repr

/-- S3 object metadata as read at lines 44-51. -/
structure S3Metadata where
  analysisId : Option String
  userId : Option String
  userSelectedState : Option String
  originalFilename : Option String
deriving DecidableEq, Repr

/-- The two environment variables read at lines 10-11. -/
structure LambdaEnv where
  leaseAnalysesTableName : Option String
  nextjsApiEndpoint : Option String
deriving DecidableEq, Repr

/-- Outcomes of the external calls the handler makes, in program order:
`event[...]` field access (lines 32-33), `s3.head_object` (line 44),
`get_object` + `read` + PyMuPDF extraction (lines 83-89), the three
`table.update_item` sites (lines 95, 139, 176; `true` = call returns,
`false` = call raises), and `requests.post` (line 158; `Except.ok s` =
a response with HTTP status `s`, `Except.error` = the request itself
raised). -/
structure World where
  eventRecords : Except String (String × String)
  headObject : Except String S3Metadata
  extractText : Except String String
  updateEmptyTextOk : Bool
  updateCompleteOk : Bool
  postResult : Except String Nat
  updateFailedOk : Bool
deriving Repr

/-- A raised Python exception as it crosses the outer `except` boundary:
message, the value of `analysis_id_from_metadata` at the raise site,
and the DynamoDB updates already performed. -/
structure PyException where
  msg : String
  analysisIdAtRaise : Option String
  updatesAtRaise : List DdbUpdate
deriving DecidableEq, Repr

/-- The handler's return value `{'statusCode': ..., 'body': ...}`. -/
structure HandlerResult where
  statusCode : Nat
  body : String
deriving DecidableEq, Repr

/-- Python whitespace for `str.strip()`: space, tab, newline, carriage
return, vertical tab, form feed. -/
def pyIsSpace (c : Char) : Bool :=
  c = ' ' || c = '\t' || c = '\n' || c = '\r' || c = '\x0b' || c = '\x0c'

/-- Python `s.strip()`: remove leading and trailing whitespace. -/
def pyStrip (s : String) : String :=
  String.mk (((s.data.dropWhile pyIsSpace).reverse.dropWhile pyIsSpace).reverse)

/-- Error details written by the empty-extraction branch (line 105). -/
def emptyTextDetails : String :=
  "No text could be extracted. The PDF might be image-based or empty."

/-- Message of the ValueError raised at line 57 when `analysis-id` is
missing (or falsy) in the S3 metadata. -/
def missingIdMsg : String := "Missing 'analysis-id' in S3 metadata, cannot proceed."

/-- Message of the `requests.HTTPError` raised by `raise_for_status`
for an HTTP status in [400, 600); it names the status code. -/
def httpErrorMsg (s : Nat) : String := toString s ++ " Error for url"

/-- Message of a raised `botocore` error from a failing `update_item`. -/
def ddbErrMsg : String := "ClientError: update_item failed"

/-- Lines 31-166: the body of the outer `try`.  `Except.error exc` means
an exception reached the outer `except Exception` handler.  The inner
`try/except` of lines 43-80 re-raises whenever `head_object` fails or
`analysis-id` is absent, because `analysis_id_from_metadata` is still
`None`/falsy in both cases (lines 63-64); its DynamoDB-update branch
(lines 66-80) is unreachable for the modelled raise sites. -/
def handlerCore (w : World) : Except PyException (HandlerResult × List DdbUpdate) :=
  match w.eventRecords with
  | .error e => .error ⟨e, none, []⟩
  | .ok _bucketKey =>
    match w.headObject with
    | .error e => .error ⟨e, none, []⟩
    | .ok md =>
      match md.analysisId with
      | none => .error ⟨missingIdMsg, none, []⟩
      | some aid =>
        if aid = "" then .error ⟨missingIdMsg, none, []⟩
        else
          match w.extractText with
          | .error e => .error ⟨e, some aid, []⟩
          | .ok text =>
            if pyStrip text = "" then
              if w.updateEmptyTextOk then
                (.ok (⟨400, "No text extracted from PDF."⟩,
                  [⟨aid, "FAILED", some emptyTextDetails⟩]))
              else .error ⟨ddbErrMsg, some aid, []⟩
            else
              if w.updateCompleteOk then
                match w.postResult with
                | .error e =>
                  .error ⟨e, some aid, [⟨aid, "TEXT_EXTRACTION_COMPLETE", none⟩]⟩
                | .ok s =>
                  if 400 ≤ s ∧ s < 600 then
                    (.error ⟨httpErrorMsg s, some aid,
                      [⟨aid, "TEXT_EXTRACTION_COMPLETE", none⟩]⟩)
                  else
                    (.ok (⟨200, "Text extracted and AI processing initiated."⟩,
                      [⟨aid, "TEXT_EXTRACTION_COMPLETE", none⟩]))
              else .error ⟨ddbErrMsg, some aid, []⟩

/-- `handler(event, context)` (lines 16-205): the environment-variable
guard (lines 22-24), the outer `try` body (`handlerCore`), and the
outer `except Exception` handler (lines 168-201), which writes a FAILED
record when `analysis_id_from_metadata` is available — itself
best-effort: a raising `update_item` there is swallowed (lines
191-192) — and returns a 500 response.  Returns the response paired
with the list of DynamoDB updates that took effect. -/
def handler (env : LambdaEnv) (w : World) : HandlerResult × List DdbUpdate :=
  if !(pyTruthy env.leaseAnalysesTableName) || !(pyTruthy env.nextjsApiEndpoint) then
    (⟨500, "Lambda configuration error."⟩, [])
  else
    match handlerCore w with
    | .ok r => r
    | .error exc =>
      let finalUpdates :=
        match exc.analysisIdAtRaise with
        | some aid =>
          if w.updateFailedOk then
            exc.updatesAtRaise ++ [⟨aid, "FAILED", some exc.msg⟩]
          else exc.updatesAtRaise
        | none => exc.updatesAtRaise
      (⟨500, exc.msg⟩, finalUpdates)

/-- An environment with both variables set (truthy). -/
def envOk : LambdaEnv :=
  { leaseAnalysesTableName := some "LeaseAnalyses"
    nextjsApiEndpoint := some "https://example.com/api/ai-process" }

/-- A world whose S3 event lacks the expected `Records` structure, so
line 32 raises before any analysis id is known. -/
def wMalformedEvent : World :=
  { eventRecords := .error "KeyError: Records"
    headObject := .error "unreached"
    extractText := .error "unreached"
    updateEmptyTextOk := true
    updateCompleteOk := true
    postResult := .ok 200
    updateFailedOk := true }

/-- Metadata carrying a valid analysis id. -/
def mdOk : S3Metadata :=
  { analysisId := some "a1"
    userId := some "u1"
    userSelectedState := some "TX"
    originalFilename := some "lease.pdf" }

/-- A world whose PDF yields only whitespace text. -/
def wEmptyText : World :=
  { eventRecords := .ok ("bucket", "uploads/lease.pdf")
    headObject := .ok mdOk
    extractText := .ok "  \n "
    updateEmptyTextOk := true
    updateCompleteOk := true
    postResult := .ok 200
    updateFailedOk := true }

/-- A world where everything succeeds but the downstream POST answers
with HTTP status 304 (non-2xx, yet outside [400, 600)). -/
def wPost304 : World :=
  { eventRecords := .ok ("bucket", "uploads/lease.pdf")
    headObject := .ok mdOk
    extractText := .ok "Lease agreement terms."
    updateEmptyTextOk := true
    updateCompleteOk := true
    postResult := .ok 304
    updateFailedOk := true }

/-- Any successful run of the outer try body ends with status 400 or
200 (the only `return` statements inside the try are lines 109 and
163). -/
theorem handlerCore_ok_status (w : World) (r : HandlerResult) (ups : List DdbUpdate)
    (h : handlerCore w = .ok (r, ups)) :
    r.statusCode = 400 ∨ r.statusCode = 200 := by
  unfold handlerCore at h
  repeat' split at h
  all_goals first
  | (exfalso; exact Except.noConfusion h)
  | (simp only [Except.ok.injEq, Prod.mk.injEq] at h
     obtain ⟨h1, h2⟩ := h
     rw [← h1]
     simp)

/-- C4 counterexample: with both environment variables set and a
malformed S3 event, the raised KeyError is caught and mapped to a 500
response, but no record-store update happens at all (no analysis id
was available), refuting "every exception ... is caught and mapped to
a record-store update (setting status to FAILED) and a 500 response". -/
theorem handler_exception_without_record_update :
    (handler envOk wMalformedEvent).1.statusCode = 500 ∧
    (handler envOk wMalformedEvent).2 = [] := by
  constructor <;> rfl

/-- C4 amended: the handler is total and only ever returns 200, 400 or
500; when the try body raises, the handler returns 500, and the FAILED
record-store update is written exactly when the analysis id was
available at the raise site and the update itself succeeds — a failing
or impossible FAILED write is only logged and the 500 response is still
returned. -/
theorem handler_catches_all_exceptions :
    (∀ (env : LambdaEnv) (w : World),
      (handler env w).1.statusCode = 200 ∨ (handler env w).1.statusCode = 400 ∨
      (handler env w).1.statusCode = 500) ∧
    (∀ (env : LambdaEnv) (w : World) (exc : PyException),
      pyTruthy env.leaseAnalysesTableName = true →
      pyTruthy env.nextjsApiEndpoint = true →
      handlerCore w = .error exc →
      (handler env w).1.statusCode = 500 ∧
      (∀ aid, exc.analysisIdAtRaise = some aid → w.updateFailedOk = true →
        (handler env w).2 = exc.updatesAtRaise ++ [⟨aid, "FAILED", some exc.msg⟩]) ∧
      (w.updateFailedOk = false → (handler env w).2 = exc.updatesAtRaise) ∧
      (exc.analysisIdAtRaise = none → (handler env w).2 = exc.updatesAtRaise)) := by
  constructor
  · intro env w
    unfold handler
    split
    · exact Or.inr (Or.inr rfl)
    · cases hc : handlerCore w with
      | ok r =>
        rcases handlerCore_ok_status w r.1 r.2 (by rw [hc]) with h | h
        · exact Or.inr (Or.inl (by simp [hc, h]))
        · exact Or.inl (by simp [hc, h])
      | error exc => exact Or.inr (Or.inr (by simp [hc]))
  · intro env w exc h1 h2 hcore
    have hcond : (!(pyTruthy env.leaseAnalysesTableName) ||
        !(pyTruthy env.nextjsApiEndpoint)) = false := by
      simp [h1, h2]
    refine ⟨?_, ?_, ?_, ?_⟩
    · simp [handler, hcond, hcore]
    · intro aid ha hu
      simp [handler, hcond, hcore, ha, hu]
    · intro hu
      cases ha : exc.analysisIdAtRaise <;> simp [handler, hcond, hcore, ha, hu]
    · intro ha
      simp [handler, hcond, hcore, ha]

/-- C4 witness: a world where the PDF-extraction step raises while the
analysis id is known and the FAILED write succeeds — the handler
returns 500 and appends the FAILED record. -/
theorem handler_catches_all_exceptions_witness :
    (handler envOk
      { wEmptyText with extractText := .error "fitz.FileDataError: broken file" }).1.statusCode
        = 500 ∧
    (handler envOk
      { wEmptyText with extractText := .error "fitz.FileDataError: broken file" }).2 =
      [⟨"a1", "FAILED", some "fitz.FileDataError: broken file"⟩] := by
  have h := handler_catches_all_exceptions.2 envOk
    { wEmptyText with extractText := .error "fitz.FileDataError: broken file" }
    ⟨"fitz.FileDataError: broken file", some "a1", []⟩ rfl rfl rfl
  exact ⟨h.1, h.2.1 "a1" rfl rfl⟩

/-- C5: with the environment set, a well-formed event, metadata carrying
a (truthy) analysis id, and the extraction yielding whitespace-only
text, the handler returns 400 and the record store holds exactly one
update for the analysis id, setting its status to FAILED. -/
theorem handler_empty_text_400_failed (env : LambdaEnv) (w : World)
    (bk : String × String) (md : S3Metadata) (aid text : String)
    (h1 : pyTruthy env.leaseAnalysesTableName = true)
    (h2 : pyTruthy env.nextjsApiEndpoint = true)
    (h3 : w.eventRecords = .ok bk)
    (h4 : w.headObject = .ok md)
    (h5 : md.analysisId = some aid)
    (h6 : aid ≠ "")
    (h7 : w.extractText = .ok text)
    (h8 : pyStrip text = "")
    (h9 : w.updateEmptyTextOk = true) :
    (handler env w).1.statusCode = 400 ∧
    (handler env w).2 = [⟨aid, "FAILED", some emptyTextDetails⟩] := by
  have hcore : handlerCore w =
      .ok (⟨400, "No text extracted from PDF."⟩, [⟨aid, "FAILED", some emptyTextDetails⟩]) := by
    simp [handlerCore, h3, h4, h5, h6, h7, h8, h9]
  constructor <;> simp [handler, h1, h2, hcore]

/-- C5 witness: the concrete whitespace-only-extraction world gets a
400 response and a FAILED record for analysis id "a1". -/
theorem handler_empty_text_400_failed_witness :
    (handler envOk wEmptyText).1.statusCode = 400 ∧
    (handler envOk wEmptyText).2 = [⟨"a1", "FAILED", some emptyTextDetails⟩] := by
  exact handler_empty_text_400_failed envOk wEmptyText
    ("bucket", "uploads/lease.pdf") mdOk "a1" "  \n "
    rfl rfl rfl rfl rfl (by decide) rfl (by decide) rfl

/-- C6 counterexample: a downstream POST answering 304 — a non-2xx
status — does not trip `raise_for_status` (which raises only for
statuses in [400, 600)), so the handler returns 200 and the record
keeps status TEXT_EXTRACTION_COMPLETE, refuting "non-2xx response ⇒
500 and FAILED". -/
theorem handler_post_304_returns_200 :
    (handler envOk wPost304).1.statusCode = 200 ∧
    (handler envOk wPost304).2 = [⟨"a1", "TEXT_EXTRACTION_COMPLETE", none⟩] := by
  constructor <;> rfl

/-- C6 amended: when the downstream notification POST answers with an
HTTP status in [400, 600) (the statuses `raise_for_status` raises for),
the handler returns 500 and the record store ends FAILED with error
details naming the failing status, after the earlier
TEXT_EXTRACTION_COMPLETE update. -/
theorem handler_post_error_500_failed (env : LambdaEnv) (w : World)
    (bk : String × String) (md : S3Metadata) (aid text : String) (s : Nat)
    (h1 : pyTruthy env.leaseAnalysesTableName = true)
    (h2 : pyTruthy env.nextjsApiEndpoint = true)
    (h3 : w.eventRecords = .ok bk)
    (h4 : w.headObject = .ok md)
    (h5 : md.analysisId = some aid)
    (h6 : aid ≠ "")
    (h7 : w.extractText = .ok text)
    (h8 : pyStrip text ≠ "")
    (h9 : w.updateCompleteOk = true)
    (h10 : w.postResult = .ok s)
    (h11 : 400 ≤ s) (h12 : s < 600)
    (h13 : w.updateFailedOk = true) :
    (handler env w).1.statusCode = 500 ∧
    (handler env w).2 = [⟨aid, "TEXT_EXTRACTION_COMPLETE", none⟩,
      ⟨aid, "FAILED", some (httpErrorMsg s)⟩] := by
  have hcore : handlerCore w =
      .error ⟨httpErrorMsg s, some aid, [⟨aid, "TEXT_EXTRACTION_COMPLETE", none⟩]⟩ := by
    simp [handlerCore, h3, h4, h5, h6, h7, h8, h9, h10, h11, h12]
  constructor <;> simp [handler, h1, h2, hcore, h13]

/-- C6 witness: the happy-path world with the POST answering 503 gets a
500 response and the FAILED record naming status 503. -/
theorem handler_post_error_500_failed_witness :
    (handler envOk { wPost304 with postResult := .ok 503 }).1.statusCode = 500 ∧
    (handler envOk { wPost304 with postResult := .ok 503 }).2 =
      [⟨"a1", "TEXT_EXTRACTION_COMPLETE", none⟩, ⟨"a1", "FAILED", some (httpErrorMsg 503)⟩] := by
  exact handler_post_error_500_failed envOk { wPost304 with postResult := .ok 503 }
    ("bucket", "uploads/lease.pdf") mdOk "a1" "Lease agreement terms." 503
    rfl rfl rfl rfl rfl (by decide) rfl (by decide) rfl rfl (by decide) (by decide) rfl

/-!
Tool adapters.  `get_youtube_transcription`
(agentchat_function_call_async.py, lines 39-55) wraps the remote
transcript fetch in try/except and returns `[]` on any exception.
`bing_search` (cruise_promo/research.py, lines 75-99) calls
`requests.get` and `response.raise_for_status()` with no try/except at
all.  The remote call outcome is embedded as an `Except` argument.
-/

/-- An HTTP response as `requests` returns it: status code and body. -/
structure HttpResponse where
  status : Nat
  text : String
deriving DecidableEq, Repr

/-- `Response.raise_for_status()` from the `requests` library: raises
`HTTPError` exactly for status codes in [400, 600). -/
def raise_for_status (r : HttpResponse) : Except String Unit :=
  if 400 ≤ r.status ∧ r.status < 600 then .error (httpErrorMsg r.status) else .ok ()

/-- `get_youtube_transcription(video_id, languages)`: the body is one
remote call in a try/except returning the transcript list, or `[]`
after printing the error.  `α` is the type of one transcript entry
(a dict in the source). -/
def get_youtube_transcription (α : Type) (fetched : Except String (List α)) : List α :=
  match fetched with
  | .ok transcripts => transcripts
  | .error _ => []

/-- `bing_search(search_term, max_results)`: performs the request, then
`response.raise_for_status()`, then returns `response.text`; there is
no try/except, so both a raising `requests.get` and an HTTPError
propagate to the caller. -/
def bing_search (resp : Except String HttpResponse) : Except String String :=
  match resp with
  | .error e => .error e
  | .ok r =>
    match raise_for_status r with
    | .error e => .error e
    | .ok _ => .ok r.text

/-- C7 counterexample: a connection error raised inside the search
adapter's remote call propagates unchanged to the caller — it is not
caught and not converted to an empty/neutral result, refuting "for
every tool adapter ... the exception is caught at the call site". -/
theorem bing_search_propagates_exception :
    bing_search (.error "requests.exceptions.ConnectionError") =
      .error "requests.exceptions.ConnectionError" := by
  rfl

/-- C7 amended: the transcript-fetch adapter catches every exception
from the remote call and returns the empty list, but the search adapter
`bing_search` in research.py propagates exceptions: a raising
`requests.get` passes through unchanged, and a response with status in
[400, 600) makes `raise_for_status` raise an HTTPError to the caller. -/
theorem tool_adapter_error_behavior :
    (∀ (α : Type) (e : String), get_youtube_transcription α (.error e) = []) ∧
    (∀ e : String, bing_search (.error e) = .error e) ∧
    (∀ r : HttpResponse, 400 ≤ r.status → r.status < 600 →
      bing_search (.ok r) = .error (httpErrorMsg r.status)) := by
  refine ⟨fun α e => rfl, fun e => rfl, ?_⟩
  intro r h1 h2
  simp [bing_search, raise_for_status, h1, h2]

/-- C7 amended witness: a transcript fetch that raises yields `[]`, and
a search response with HTTP status 500 yields a propagated HTTPError. -/
theorem tool_adapter_error_behavior_witness :
    get_youtube_transcription Nat (.error "TranscriptsDisabled") = [] ∧
    bing_search (.ok ⟨500, "Internal Server Error"⟩) = .error (httpErrorMsg 500) := by
  exact ⟨tool_adapter_error_behavior.1 Nat "TranscriptsDisabled",
    tool_adapter_error_behavior.2.2 ⟨500, "Internal Server Error"⟩ (by decide) (by decide)⟩
